import Mathlib

/-!
# Shallow embedding of the order / return / stock subsystem

This file embeds, as pure Lean functions over an explicit database state,
the controllers of the repository that mutate stock:

* `createVenta` / `anularVenta`   — `src/controllers/ventas.controller.js`
* `createCompra` / `anularCompra` — `src/controllers/compras.controller.js`
* `createDevolucion`, `updateDevolucion`, `anularDevolucion`,
  `toggleDevolucionStatus`       — `src/controllers/devoluciones.controller.js`

Conventions of the embedding:

* Each HTTP handler wraps its work in one transaction and, on any error
  response, rolls the transaction back.  We model a handler as a function
  `DB → … → Except String (DB × …)`: the `ok` case is the committed new
  state, the `error` case carries the response message and, by
  construction, applies no mutation.
* Sequelize `increment`/`decrement` are raw `UPDATE` statements that bypass
  model-level validation; they are modelled as unconditional arithmetic on
  the matching rows.
* `findByPk` / `findOne` calls issued without a `transaction` option read
  the committed state, not the transaction's pending writes; accordingly
  the loops below look rows up in the database as it was when the handler
  started, while their pending writes accumulate separately until commit.
* Record types keep the source's field names.  The model files for
  `Producto`, `Venta`, `DetalleVenta`, `Compra`, `DetalleCompra` and
  `Devolucion` are not part of the sources; their fields are taken from
  how the controllers read and write them.  Time-stamp and free-text audit
  fields that no claim depends on are omitted.
* The blank-reason test `!Motivo || Motivo.trim() === ''` is modelled as
  "every character of the reason is whitespace", which holds exactly when
  the trimmed string is empty.
-/

namespace Nueva

/-- Variant row (`models/tallas.model.js`): per-variant stock counter
`Cantidad`, owning product `IdProducto`, active flag `Estado`. -/
structure Talla where
  IdTalla : Nat
  Nombre : String
  Cantidad : Int
  IdProducto : Option Nat
  Estado : Bool
deriving Repr, DecidableEq

/-- Product row, fields as read by the controllers: catalog prices, the
product-level aggregate stock counter `Stock` and the active flag. -/
structure Producto where
  IdProducto : Nat
  Nombre : String
  Estado : Bool
  PrecioVenta : Int
  EnOferta : Bool
  PrecioOferta : Option Int
  Stock : Int
deriving Repr, DecidableEq

/-- Customer row: only existence and the active flag are consulted. -/
structure Cliente where
  IdCliente : Nat
  Estado : Bool
deriving Repr, DecidableEq

/-- Supplier row: only existence and the active flag are consulted. -/
structure Proveedor where
  IdProveedor : Nat
  Estado : Bool
deriving Repr, DecidableEq

/-- Row of the `Estados` catalog used by sales (`Completada`, `Anulada`, …). -/
structure EstadoRow where
  IdEstado : Nat
  Nombre : String
deriving Repr, DecidableEq

/-- Sale header.  `IdEstado` references the `Estados` catalog; the code
treats `3` as the annulled state. -/
structure Venta where
  IdVenta : Nat
  IdCliente : Nat
  IdEstado : Nat
  Total : Int
deriving Repr, DecidableEq

/-- Sale line, with the return-tracking fields `CantidadDevuelta` and
`Devuelto` and the snapshotted unit price `Precio`. -/
structure DetalleVenta where
  IdDetalleVenta : Nat
  IdVenta : Nat
  IdProducto : Nat
  IdTalla : Nat
  Cantidad : Int
  Precio : Int
  Subtotal : Int
  Devuelto : Bool
  CantidadDevuelta : Int
deriving Repr, DecidableEq

/-- Purchase header; `Estado = false` means annulled. -/
structure Compra where
  IdCompra : Nat
  IdProveedor : Nat
  Estado : Bool
  Total : Int
deriving Repr, DecidableEq

/-- Purchase line. -/
structure DetalleCompra where
  IdDetalleCompra : Nat
  IdCompra : Nat
  IdProducto : Nat
  IdTalla : Nat
  Cantidad : Int
  PrecioCompra : Int
  PrecioVenta : Int
  Subtotal : Int
deriving Repr, DecidableEq

/-- Return row; `Estado = true` means active, `false` annulled. -/
structure Devolucion where
  IdDevolucion : Nat
  IdProducto : Nat
  IdVenta : Nat
  Cantidad : Int
  Motivo : String
  Monto : Int
  Estado : Bool
deriving Repr, DecidableEq

/-- The persistent state: one list per table plus auto-increment counters. -/
structure DB where
  clientes : List Cliente
  proveedores : List Proveedor
  productos : List Producto
  tallas : List Talla
  estados : List EstadoRow
  ventas : List Venta
  detallesVenta : List DetalleVenta
  compras : List Compra
  detallesCompra : List DetalleCompra
  devoluciones : List Devolucion
  nextVentaId : Nat
  nextDetalleVentaId : Nat
  nextCompraId : Nat
  nextDetalleCompraId : Nat
  nextDevolucionId : Nat
deriving Repr, DecidableEq

/-- Request line for `createVenta` (`productos` array of the POST body). -/
structure ItemVenta where
  IdProducto : Nat
  IdTalla : Nat
  Cantidad : Int
deriving Repr, DecidableEq

/-- Request line for `createCompra`. -/
structure ItemCompra where
  IdProducto : Nat
  IdTalla : Nat
  Cantidad : Int
  PrecioCompra : Int
  PrecioVenta : Option Int
deriving Repr, DecidableEq

/-- `Producto.findByPk`. -/
def findProducto (db : DB) (id : Nat) : Option Producto :=
  db.productos.find? fun p => p.IdProducto == id

/-- `Talla.findOne({ where: { IdTalla, IdProducto } })`. -/
def findTalla (db : DB) (idTalla idProducto : Nat) : Option Talla :=
  db.tallas.find? fun t => t.IdTalla == idTalla && t.IdProducto == some idProducto

/-- `Cliente.findByPk`. -/
def findCliente (db : DB) (id : Nat) : Option Cliente :=
  db.clientes.find? fun c => c.IdCliente == id

/-- `Proveedor.findByPk`. -/
def findProveedor (db : DB) (id : Nat) : Option Proveedor :=
  db.proveedores.find? fun p => p.IdProveedor == id

/-- `Venta.findByPk`. -/
def findVenta (db : DB) (id : Nat) : Option Venta :=
  db.ventas.find? fun v => v.IdVenta == id

/-- `Compra.findByPk`. -/
def findCompra (db : DB) (id : Nat) : Option Compra :=
  db.compras.find? fun c => c.IdCompra == id

/-- `Devolucion.findByPk`. -/
def findDevolucion (db : DB) (id : Nat) : Option Devolucion :=
  db.devoluciones.find? fun d => d.IdDevolucion == id

/-- `DetalleVenta.findOne({ where: { IdVenta, IdProducto } })`. -/
def findDetalleVenta (db : DB) (idVenta idProducto : Nat) : Option DetalleVenta :=
  db.detallesVenta.find? fun d => d.IdVenta == idVenta && d.IdProducto == idProducto

/-- The `Detalles` association of a sale (`include: DetalleVenta`). -/
def ventaDetalles (db : DB) (idVenta : Nat) : List DetalleVenta :=
  db.detallesVenta.filter fun d => d.IdVenta == idVenta

/-- The `Detalles` association of a purchase. -/
def compraDetalles (db : DB) (idCompra : Nat) : List DetalleCompra :=
  db.detallesCompra.filter fun d => d.IdCompra == idCompra

/-- `Talla.increment('Cantidad', { by: q, where: { IdTalla: id } })`:
adds `q` to the counter of every row whose `IdTalla` is `id`
(a decrement is an increment by `-q`).  No validation is run. -/
def tallaIncrement (tallas : List Talla) (id : Nat) (q : Int) : List Talla :=
  tallas.map fun t => if t.IdTalla == id then { t with Cantidad := t.Cantidad + q } else t

/-- `Producto.increment('Stock', { by: q, where: { IdProducto: id } })`. -/
def productoIncrementStock (productos : List Producto) (id : Nat) (q : Int) :
    List Producto :=
  productos.map fun p =>
    if p.IdProducto == id then { p with Stock := p.Stock + q } else p

/-- `Estado.findOne({ where: { Nombre: 'Completada' } }) || { IdEstado: 1 }`. -/
def estadoCompletadaId (db : DB) : Nat :=
  ((db.estados.find? fun e => e.Nombre == "Completada").map EstadoRow.IdEstado).getD 1

/-- `Estado.findOne({ where: { Nombre: 'Anulada' } }) || { IdEstado: 3 }`. -/
def estadoAnuladaId (db : DB) : Nat :=
  ((db.estados.find? fun e => e.Nombre == "Anulada").map EstadoRow.IdEstado).getD 3

/-- The insufficient-stock message of `createVenta`:
`Stock insuficiente para ${producto.Nombre} - Talla ${talla.Nombre}. Disponible: ${talla.Cantidad}`. -/
def stockInsuficienteMsg (producto : Producto) (talla : Talla) : String :=
  "Stock insuficiente para " ++ producto.Nombre ++ " - Talla " ++ talla.Nombre ++
    ". Disponible: " ++ toString talla.Cantidad

/-- The `for (const item of productos)` loop of `createVenta`: validates each
line against the committed state `db`, accumulates the pending variant
updates (`tallas`), the line payloads and the running total.  Any failure
aborts the whole call. -/
def ventaLoop (db : DB) :
    List ItemVenta → List Talla → List DetalleVenta → Int →
      Except String (List Talla × List DetalleVenta × Int)
  | [], tallas, dets, total => .ok (tallas, dets, total)
  | item :: rest, tallas, dets, total =>
    match findProducto db item.IdProducto with
    | none => .error ("Producto " ++ toString item.IdProducto ++ " no existe")
    | some producto =>
      if !producto.Estado then
        .error ("El producto " ++ producto.Nombre ++ " está inactivo")
      else
        match findTalla db item.IdTalla item.IdProducto with
        | none => .error "Talla no válida"
        | some talla =>
          if !talla.Estado then .error "Talla no disponible"
          else if talla.Cantidad < item.Cantidad then
            .error (stockInsuficienteMsg producto talla)
          else
            let precioUnitario :=
              if producto.EnOferta then
                match producto.PrecioOferta with
                | some po => if po == 0 then producto.PrecioVenta else po
                | none => producto.PrecioVenta
              else producto.PrecioVenta
            if item.Cantidad ≤ 0 then .error "Cantidad inválida"
            else
              let subtotal := item.Cantidad * precioUnitario
              let det : DetalleVenta :=
                { IdDetalleVenta := 0
                  IdVenta := 0
                  IdProducto := item.IdProducto
                  IdTalla := item.IdTalla
                  Cantidad := item.Cantidad
                  Precio := precioUnitario
                  Subtotal := subtotal
                  Devuelto := false
                  CantidadDevuelta := 0 }
              ventaLoop db rest (tallaIncrement tallas item.IdTalla (-item.Cantidad))
                (dets ++ [det]) (total + subtotal)

/-- `createVenta` (`POST /api/ventas`): validates client and lines, checks
per-line stock against the committed state, decrements each line's variant
counter, then persists the header (state `Completada`) and its lines, all
in one transaction.  Returns the committed state and the new sale id. -/
def createVenta (db : DB) (idCliente : Nat) (items : List ItemVenta) :
    Except String (DB × Nat) :=
  if idCliente == 0 then .error "Debe seleccionar un cliente"
  else if items.isEmpty then .error "Debe incluir al menos un producto"
  else
    match findCliente db idCliente with
    | none => .error "Cliente no válido"
    | some cliente =>
      if !cliente.Estado then .error "Cliente no válido"
      else
        match ventaLoop db items db.tallas [] 0 with
        | .error e => .error e
        | .ok (tallas', dets, total) =>
          let vid := db.nextVentaId
          let nuevaVenta : Venta :=
            { IdVenta := vid
              IdCliente := idCliente
              IdEstado := estadoCompletadaId db
              Total := total }
          let nuevosDetalles :=
            dets.enum.map fun p =>
              { p.2 with
                  IdDetalleVenta := db.nextDetalleVentaId + p.1
                  IdVenta := vid }
          .ok
            ({ db with
                tallas := tallas'
                ventas := db.ventas ++ [nuevaVenta]
                detallesVenta := db.detallesVenta ++ nuevosDetalles
                nextVentaId := db.nextVentaId + 1
                nextDetalleVentaId := db.nextDetalleVentaId + dets.length },
              vid)

/-- `anularVenta` (`POST /api/ventas/:id/anular`): rejects a missing sale and
a sale whose `IdEstado` is already `3`; otherwise re-increments each line's
variant counter from the persisted lines and stamps the sale with the
looked-up `Anulada` state (id `3` when the catalog has no such row). -/
def anularVenta (db : DB) (id : Nat) : Except String DB :=
  match findVenta db id with
  | none => .error "Venta no encontrada"
  | some venta =>
    if venta.IdEstado == 3 then .error "La venta ya está anulada"
    else
      let tallas' :=
        (ventaDetalles db id).foldl
          (fun ts d => tallaIncrement ts d.IdTalla d.Cantidad) db.tallas
      let anuladaId := estadoAnuladaId db
      .ok
        { db with
            tallas := tallas'
            ventas :=
              db.ventas.map fun v =>
                if v.IdVenta == venta.IdVenta then { v with IdEstado := anuladaId }
                else v }

/-- The `for (const item of productos)` loop of `createCompra`: validates
each line and increments the variant counter; no stock ceiling exists on
the inflow side. -/
def compraLoop (db : DB) :
    List ItemCompra → List Talla → List DetalleCompra → Int →
      Except String (List Talla × List DetalleCompra × Int)
  | [], tallas, dets, total => .ok (tallas, dets, total)
  | item :: rest, tallas, dets, total =>
    match findProducto db item.IdProducto with
    | none => .error ("Producto " ++ toString item.IdProducto ++ " no existe")
    | some producto =>
      match findTalla db item.IdTalla item.IdProducto with
      | none => .error "Talla no válida"
      | some _ =>
        if item.Cantidad ≤ 0 then .error "Cantidad inválida"
        else if item.PrecioCompra ≤ 0 then .error "Precio de compra inválido"
        else
          let subtotal := item.Cantidad * item.PrecioCompra
          let det : DetalleCompra :=
            { IdDetalleCompra := 0
              IdCompra := 0
              IdProducto := item.IdProducto
              IdTalla := item.IdTalla
              Cantidad := item.Cantidad
              PrecioCompra := item.PrecioCompra
              PrecioVenta := item.PrecioVenta.getD producto.PrecioVenta
              Subtotal := subtotal }
          compraLoop db rest (tallaIncrement tallas item.IdTalla item.Cantidad)
            (dets ++ [det]) (total + subtotal)

/-- `createCompra` (`POST /api/compras`): validates supplier and lines,
increments each line's variant counter and persists the purchase (active)
with its lines, in one transaction. -/
def createCompra (db : DB) (idProveedor : Nat) (items : List ItemCompra) :
    Except String (DB × Nat) :=
  if idProveedor == 0 then .error "Debe seleccionar un proveedor"
  else if items.isEmpty then .error "Debe incluir al menos un producto"
  else
    match findProveedor db idProveedor with
    | none => .error "Proveedor no válido"
    | some proveedor =>
      if !proveedor.Estado then .error "Proveedor no válido"
      else
        match compraLoop db items db.tallas [] 0 with
        | .error e => .error e
        | .ok (tallas', dets, total) =>
          let cid := db.nextCompraId
          let nuevaCompra : Compra :=
            { IdCompra := cid, IdProveedor := idProveedor, Estado := true, Total := total }
          let nuevosDetalles :=
            dets.enum.map fun p =>
              { p.2 with
                  IdDetalleCompra := db.nextDetalleCompraId + p.1
                  IdCompra := cid }
          .ok
            ({ db with
                tallas := tallas'
                compras := db.compras ++ [nuevaCompra]
                detallesCompra := db.detallesCompra ++ nuevosDetalles
                nextCompraId := db.nextCompraId + 1
                nextDetalleCompraId := db.nextDetalleCompraId + dets.length },
              cid)

/-- `anularCompra` (`POST /api/compras/:id/anular`): rejects a missing or
already-annulled purchase; otherwise it decrements each line's variant
counter — with no check that the result stays non-negative — and marks the
purchase annulled. -/
def anularCompra (db : DB) (id : Nat) : Except String DB :=
  match findCompra db id with
  | none => .error "Compra no encontrada"
  | some compra =>
    if !compra.Estado then .error "La compra ya está anulada"
    else
      let tallas' :=
        (compraDetalles db id).foldl
          (fun ts d => tallaIncrement ts d.IdTalla (-d.Cantidad)) db.tallas
      .ok
        { db with
            tallas := tallas'
            compras :=
              db.compras.map fun c =>
                if c.IdCompra == compra.IdCompra then { c with Estado := false } else c }

/-- `Devolucion.sum('Cantidad', { where: { IdVenta, IdProducto, Estado: true } }) || 0`:
the cumulative quantity of the active returns registered against the sale
line identified by `(IdVenta, IdProducto)`. -/
def devolucionesPrevias (db : DB) (idVenta idProducto : Nat) : Int :=
  ((db.devoluciones.filter fun d =>
      d.IdVenta == idVenta && d.IdProducto == idProducto && d.Estado).map
    Devolucion.Cantidad).sum

/-- `createDevolucion` (`POST /api/devoluciones`): validates the request,
resolves the sale, the product and the sale line, bounds the new return by
the line's sold quantity net of previous active returns, then — in one
transaction — persists the return (active, `Monto = Cantidad × line.Precio`),
increments the product-level `Stock` by the returned quantity and rewrites
the line's `CantidadDevuelta`/`Devuelto`.  The sale's own state is never
consulted. -/
def createDevolucion (db : DB) (idVenta idProducto : Nat) (cantidad : Int)
    (motivo : String) : Except String (DB × Nat) :=
  if idVenta == 0 then .error "Debe especificar la venta original"
  else if idProducto == 0 then .error "Debe especificar el producto a devolver"
  else if cantidad ≤ 0 then .error "La cantidad debe ser mayor a 0"
  else if motivo.data.all Char.isWhitespace then
    .error "Debe proporcionar un motivo de devolución"
  else
    match findVenta db idVenta with
    | none => .error "Venta no encontrada"
    | some _ =>
      match findProducto db idProducto with
      | none => .error "Producto no encontrado"
      | some _ =>
        match findDetalleVenta db idVenta idProducto with
        | none => .error "El producto no está incluido en la venta especificada"
        | some detalleVenta =>
          if detalleVenta.Cantidad < cantidad then
            .error ("La cantidad a devolver (" ++ toString cantidad ++
              ") no puede ser mayor a la cantidad vendida (" ++
              toString detalleVenta.Cantidad ++ ")")
          else
            let previas := devolucionesPrevias db idVenta idProducto
            if detalleVenta.Cantidad < previas + cantidad then
              .error ("La cantidad total devuelta (" ++ toString (previas + cantidad) ++
                ") excede la cantidad vendida (" ++ toString detalleVenta.Cantidad ++ ")")
            else
              let monto := cantidad * detalleVenta.Precio
              let did := db.nextDevolucionId
              let nuevaDevolucion : Devolucion :=
                { IdDevolucion := did
                  IdProducto := idProducto
                  IdVenta := idVenta
                  Cantidad := cantidad
                  Motivo := motivo
                  Monto := monto
                  Estado := true }
              .ok
                ({ db with
                    devoluciones := db.devoluciones ++ [nuevaDevolucion]
                    productos := productoIncrementStock db.productos idProducto cantidad
                    detallesVenta :=
                      db.detallesVenta.map fun d =>
                        if d.IdDetalleVenta == detalleVenta.IdDetalleVenta then
                          { d with
                              CantidadDevuelta := previas + cantidad
                              Devuelto := previas + cantidad == detalleVenta.Cantidad }
                        else d
                    nextDevolucionId := db.nextDevolucionId + 1 },
                  did)

/-- `updateDevolucion` (`PUT /api/devoluciones/:id`): validates the optional
new `Motivo` and overwrites only the return record's `Motivo` and `Estado`
fields; it touches no stock counter and no sale line. -/
def updateDevolucion (db : DB) (id : Nat) (motivo : Option String)
    (estado : Option Bool) : Except String DB :=
  match findDevolucion db id with
  | none => .error "Devolución no encontrada"
  | some devolucion =>
    match motivo with
    | some m =>
      if m.data.all Char.isWhitespace then .error "El motivo no puede estar vacío"
      else if m.length < 5 then .error "El motivo debe tener al menos 5 caracteres"
      else
        .ok
          { db with
              devoluciones :=
                db.devoluciones.map fun d =>
                  if d.IdDevolucion == devolucion.IdDevolucion then
                    { d with Motivo := m, Estado := estado.getD d.Estado }
                  else d }
    | none =>
      .ok
        { db with
            devoluciones :=
              db.devoluciones.map fun d =>
                if d.IdDevolucion == devolucion.IdDevolucion then
                  { d with Estado := estado.getD d.Estado }
                else d }

/-- `anularDevolucion` (`POST /api/devoluciones/:id/anular`): rejects a
missing or already-annulled return; otherwise decrements the product-level
`Stock` by the return's quantity and flips the return to annulled.  The
sale line's `CantidadDevuelta` is left untouched. -/
def anularDevolucion (db : DB) (id : Nat) : Except String DB :=
  match findDevolucion db id with
  | none => .error "Devolución no encontrada"
  | some devolucion =>
    if !devolucion.Estado then .error "La devolución ya está anulada"
    else
      .ok
        { db with
            productos :=
              productoIncrementStock db.productos devolucion.IdProducto
                (-devolucion.Cantidad)
            devoluciones :=
              db.devoluciones.map fun d =>
                if d.IdDevolucion == devolucion.IdDevolucion then
                  { d with Estado := false }
                else d }

/-- `toggleDevolucionStatus` (`PATCH /api/devoluciones/:id/estado`): flips
the return's `Estado`, decrementing the product-level `Stock` when
annulling and re-incrementing it when reactivating.  No bound against the
sale line is checked and the line's `CantidadDevuelta` is not updated. -/
def toggleDevolucionStatus (db : DB) (id : Nat) : Except String DB :=
  match findDevolucion db id with
  | none => .error "Devolución no encontrada"
  | some devolucion =>
    let delta : Int := if devolucion.Estado then -devolucion.Cantidad else devolucion.Cantidad
    .ok
      { db with
          productos := productoIncrementStock db.productos devolucion.IdProducto delta
          devoluciones :=
            db.devoluciones.map fun d =>
              if d.IdDevolucion == devolucion.IdDevolucion then
                { d with Estado := !devolucion.Estado }
              else d }

/-! ## Observers and helper notions used by the statements -/

/-- The stock counter of the variant with primary key `id` (read-only). -/
def tallaCantidad (db : DB) (id : Nat) : Option Int :=
  (db.tallas.find? fun t => t.IdTalla == id).map Talla.Cantidad

/-- The product-level aggregate stock counter of product `id` (read-only). -/
def productoStock (db : DB) (id : Nat) : Option Int :=
  (db.productos.find? fun p => p.IdProducto == id).map Producto.Stock

/-- The sold quantity of the sale line resolved by `(idVenta, idProducto)`. -/
def lineaCantidad (db : DB) (idVenta idProducto : Nat) : Option Int :=
  (findDetalleVenta db idVenta idProducto).map DetalleVenta.Cantidad

/-- The `CantidadDevuelta` return-tracking field of the resolved sale line. -/
def lineaCantidadDevuelta (db : DB) (idVenta idProducto : Nat) : Option Int :=
  (findDetalleVenta db idVenta idProducto).map DetalleVenta.CantidadDevuelta

/-- `leadsWith needle hay`: `hay` starts with `needle`. -/
def leadsWith : List Char → List Char → Bool
  | [], _ => true
  | _ :: _, [] => false
  | a :: as, b :: bs => a == b && leadsWith as bs

/-- `occursIn needle hay`: `needle` occurs contiguously inside `hay`. -/
def occursIn (needle : List Char) : List Char → Bool
  | [] => needle.isEmpty
  | c :: rest => leadsWith needle (c :: rest) || occursIn needle rest

/-- A message `hay` names a datum when the datum's rendering occurs in it. -/
def mentions (hay needle : String) : Bool :=
  occursIn needle.data hay.data

/-- Bool form of the per-line stock guard of `createVenta`'s loop: every
requested line has a resolvable variant, a positive quantity and a quantity
within the variant's stock as read at the start of the call. -/
def itemsRespetanStock (db : DB) (items : List ItemVenta) : Bool :=
  items.all fun i =>
    match findTalla db i.IdTalla i.IdProducto with
    | some t => decide (0 < i.Cantidad) && decide (i.Cantidad ≤ t.Cantidad)
    | none => false

/-- One `(IdTalla, delta)` stock adjustment per entry, applied in order:
the composite effect of a handler's sequence of `Talla.increment` /
`Talla.decrement` calls. -/
def applyDeltas (tallas : List Talla) (ds : List (Nat × Int)) : List Talla :=
  ds.foldl (fun ts p => tallaIncrement ts p.1 p.2) tallas

/-- The net adjustment a delta list applies to the counter of variant `id`. -/
def netDelta (ds : List (Nat × Int)) (id : Nat) : Int :=
  (ds.map fun p => if p.1 == id then p.2 else 0).sum

/-! ## Interleaving model for two concurrent `createVenta` calls (one line each)

`createVenta`'s stock pre-check (`talla.Cantidad < item.Cantidad`) reads the
committed stock through a `findOne` issued without the transaction, and the
decrement only becomes visible to other connections at commit.  A single
in-flight call against one variant is therefore two atomic database steps:
the pre-check against the committed counter, and the commit that publishes
the decrement.  `runTwoSales` runs two such calls under an explicit
interleaving (`true` = schedule a step of call 1, `false` = of call 2). -/

/-- Progress of one in-flight single-line sale call. -/
inductive CallPhase
  | ready
  | passed
  | succeeded
  | failed
deriving Repr, DecidableEq

/-- Shared committed stock plus each call's progress. -/
structure ConcState where
  stock : Int
  phase1 : CallPhase
  phase2 : CallPhase
deriving Repr, DecidableEq

/-- One step of a call requesting quantity `q`: from `ready`, run the
pre-check against the committed stock (this is the `talla.Cantidad <
item.Cantidad` branch of `createVenta`, which rolls back on failure); from
`passed`, commit the `Talla.decrement`.  Finished calls do nothing. -/
def saleCallStep (q stock : Int) : CallPhase → CallPhase × Int
  | .ready => if stock < q then (.failed, stock) else (.passed, stock)
  | .passed => (.succeeded, stock - q)
  | ph => (ph, stock)

/-- Run two single-line sale calls of quantities `q1`, `q2` under the given
interleaving. -/
def runTwoSales (q1 q2 : Int) : List Bool → ConcState → ConcState
  | [], s => s
  | b :: rest, s =>
    if b then
      let r := saleCallStep q1 s.stock s.phase1
      runTwoSales q1 q2 rest { s with phase1 := r.1, stock := r.2 }
    else
      let r := saleCallStep q2 s.stock s.phase2
      runTwoSales q1 q2 rest { s with phase2 := r.1, stock := r.2 }

/-! ## Concrete scenario states and operation chains -/

/-- A variant of product 1 with empty stock. -/
def tallaM0 : Talla :=
  { IdTalla := 1, Nombre := "M", Cantidad := 0, IdProducto := some 1, Estado := true }

/-- An active product with no offer price. -/
def productoCamisa : Producto :=
  { IdProducto := 1, Nombre := "Camisa", Estado := true, PrecioVenta := 10,
    EnOferta := false, PrecioOferta := none, Stock := 0 }

/-- Empty-ledger state: one active client, one active supplier, one product
with one variant whose stock is 0, no orders yet. -/
def db0 : DB :=
  { clientes := [{ IdCliente := 1, Estado := true }]
    proveedores := [{ IdProveedor := 1, Estado := true }]
    productos := [productoCamisa]
    tallas := [tallaM0]
    estados := []
    ventas := []
    detallesVenta := []
    compras := []
    detallesCompra := []
    devoluciones := []
    nextVentaId := 1
    nextDetalleVentaId := 1
    nextCompraId := 1
    nextDetalleCompraId := 1
    nextDevolucionId := 1 }

/-- Callable-operation chain for the stock invariant: buy 5, sell 5, then
cancel the purchase; observe variant 1's final counter. -/
def c1Run : Except String (Option Int) := do
  let r1 ← createCompra db0 1
    [{ IdProducto := 1, IdTalla := 1, Cantidad := 5, PrecioCompra := 7, PrecioVenta := none }]
  let r2 ← createVenta r1.1 1 [{ IdProducto := 1, IdTalla := 1, Cantidad := 5 }]
  let d3 ← anularCompra r2.1 r1.2
  pure (tallaCantidad d3 1)

/-- State with one completed sale (sale 10, client 1): a single line of 4
units of product 1, variant 1, at the snapshotted unit price 10. -/
def dbRet : DB :=
  { clientes := [{ IdCliente := 1, Estado := true }]
    proveedores := []
    productos := [productoCamisa]
    tallas := [{ tallaM0 with Cantidad := 6 }]
    estados := []
    ventas := [{ IdVenta := 10, IdCliente := 1, IdEstado := 1, Total := 40 }]
    detallesVenta :=
      [{ IdDetalleVenta := 100, IdVenta := 10, IdProducto := 1, IdTalla := 1,
         Cantidad := 4, Precio := 10, Subtotal := 40, Devuelto := false,
         CantidadDevuelta := 0 }]
    compras := []
    detallesCompra := []
    devoluciones := []
    nextVentaId := 11
    nextDetalleVentaId := 101
    nextCompraId := 1
    nextDetalleCompraId := 1
    nextDevolucionId := 1 }

/-- Return/toggle chain against `dbRet`: create a return of 3, annul it via
the toggle, create another return of 3, then reactivate the first via the
toggle; observe the cumulative active-return quantity and the line's sold
quantity. -/
def c2Run : Except String (Int × Option Int) := do
  let r1 ← createDevolucion dbRet 10 1 3 "defectuoso"
  let d2 ← toggleDevolucionStatus r1.1 r1.2
  let r3 ← createDevolucion d2 10 1 3 "defectuoso"
  let d4 ← toggleDevolucionStatus r3.1 r1.2
  pure (devolucionesPrevias d4 10 1, lineaCantidad d4 10 1)

/-- Return chain against `dbRet`: create a return of 2, then annul it;
observe the line's `CantidadDevuelta` and the active-return sum. -/
def c3Run : Except String (Option Int × Int) := do
  let r1 ← createDevolucion dbRet 10 1 2 "defectuoso"
  let d2 ← anularDevolucion r1.1 r1.2
  pure (lineaCantidadDevuelta d2 10 1, devolucionesPrevias d2 10 1)

/-- Same as `dbRet` but the sale is already annulled (`IdEstado = 3`). -/
def dbAnulada : DB :=
  { dbRet with
      ventas := [{ IdVenta := 10, IdCliente := 1, IdEstado := 3, Total := 40 }] }

/-- State for the insufficient-stock scenario: variant stock 5. -/
def dbStock5 : DB :=
  { db0 with tallas := [{ tallaM0 with Cantidad := 5 }] }

/-- State for the cancellation claims: an active sale (10) with one line of
4 units and an active purchase (20) with one line of 5 units, variant
stock 9. -/
def dbC4 : DB :=
  { dbRet with
      tallas := [{ tallaM0 with Cantidad := 9 }]
      proveedores := [{ IdProveedor := 1, Estado := true }]
      compras := [{ IdCompra := 20, IdProveedor := 1, Estado := true, Total := 35 }]
      detallesCompra :=
        [{ IdDetalleCompra := 200, IdCompra := 20, IdProducto := 1, IdTalla := 1,
           Cantidad := 5, PrecioCompra := 7, PrecioVenta := 10, Subtotal := 35 }]
      nextCompraId := 21
      nextDetalleCompraId := 201 }

/-- First half of the round-trip witness run: sell 2 units from `dbStock5`. -/
def c5db1 : DB :=
  (((createVenta dbStock5 1 [{ IdProducto := 1, IdTalla := 1, Cantidad := 2 }]).toOption).map
    Prod.fst).getD dbStock5

/-- Second half of the round-trip witness run: cancel that sale. -/
def c5db2 : DB :=
  ((anularVenta c5db1 1).toOption).getD c5db1

/-! ## General lemmas -/

/-- `find?` commutes with a map that does not change the predicate's verdict. -/
theorem find?_map_pres {α : Type} (f : α → α) (p : α → Bool)
    (h : ∀ a, p (f a) = p a) (l : List α) :
    (l.map f).find? p = (l.find? p).map f := by
  rw [List.find?_map]
  have : p ∘ f = p := funext h
  rw [this]

/-- A list is pointwise related to its image under `f` when `f` relates
every element to itself. -/
theorem forall2_map_self {α : Type} (R : α → α → Prop) (f : α → α)
    (h : ∀ a, R a (f a)) (l : List α) : List.Forall₂ R l (l.map f) := by
  induction l with
  | nil => simp
  | cons a l ih => exact List.Forall₂.cons (h a) ih

/-- Re-keying the enumerated line payloads with fresh ids and the new sale
id does not change their `(variant, quantity)` pairs. -/
theorem enum_reindex_pairs (vid base : Nat) :
    ∀ (n : Nat) (dets : List DetalleVenta),
      ((List.enumFrom n dets).map fun p =>
        ({ p.2 with IdDetalleVenta := base + p.1, IdVenta := vid } : DetalleVenta)).map
          (fun d => (d.IdTalla, d.Cantidad)) =
        dets.map fun d => (d.IdTalla, d.Cantidad) := by
  intro n dets
  induction dets generalizing n with
  | nil => rfl
  | cons a l ih => simp [List.enumFrom, ih]

/-! ## The composite effect of a handler's stock adjustments -/

/-- `tallaIncrement` written additively: every row gets `q` added when its
key matches and `0` otherwise. -/
theorem tallaIncrement_map (tallas : List Talla) (id : Nat) (q : Int) :
    tallaIncrement tallas id q =
      tallas.map fun t =>
        { t with Cantidad := t.Cantidad + (if t.IdTalla == id then q else 0) } := by
  unfold tallaIncrement
  refine List.map_congr_left fun t _ => ?_
  by_cases h : t.IdTalla == id <;> simp [h]

/-- Adding a zero delta to every row changes nothing. -/
theorem map_cantidad_add_zero (l : List Talla) :
    (l.map fun t => { t with Cantidad := t.Cantidad + 0 }) = l := by
  induction l with
  | nil => rfl
  | cons t l ih => simp [ih]

/-- `netDelta` of a cons. -/
theorem netDelta_cons (a : Nat × Int) (ds : List (Nat × Int)) (id : Nat) :
    netDelta (a :: ds) id = (if a.1 == id then a.2 else 0) + netDelta ds id := by
  simp [netDelta]

/-- A delta list acts on every row by adding its net contribution to that
row's key. -/
theorem applyDeltas_eq (ds : List (Nat × Int)) :
    ∀ tallas : List Talla,
      applyDeltas tallas ds =
        tallas.map fun t => { t with Cantidad := t.Cantidad + netDelta ds t.IdTalla } := by
  induction ds with
  | nil =>
    intro tallas
    have hz : ∀ id, netDelta ([] : List (Nat × Int)) id = 0 := by intro id; simp [netDelta]
    simp only [applyDeltas, List.foldl_nil, hz, map_cantidad_add_zero]
  | cons a ds ih =>
    intro tallas
    have step : applyDeltas tallas (a :: ds) = applyDeltas (tallaIncrement tallas a.1 a.2) ds := by
      simp [applyDeltas]
    rw [step, ih, tallaIncrement_map, List.map_map]
    refine List.map_congr_left fun t _ => ?_
    simp only [Function.comp]
    rw [netDelta_cons]
    by_cases h : t.IdTalla = a.1
    · have h1 : (t.IdTalla == a.1) = true := by simp [h]
      have h2 : (a.1 == t.IdTalla) = true := by simp [h]
      simp [h1, h2, add_assoc]
    · have h1 : (t.IdTalla == a.1) = false := by simp [h]
      have h2 : (a.1 == t.IdTalla) = false := by simp [Ne.symm h]
      simp [h1, h2]

/-- Applying two delta lists in sequence adds both nets. -/
theorem applyDeltas_applyDeltas (tallas : List Talla) (ds1 ds2 : List (Nat × Int)) :
    applyDeltas (applyDeltas tallas ds1) ds2 =
      tallas.map fun t =>
        { t with Cantidad := t.Cantidad + (netDelta ds1 t.IdTalla + netDelta ds2 t.IdTalla) } := by
  rw [applyDeltas_eq, applyDeltas_eq, List.map_map]
  refine List.map_congr_left fun t _ => ?_
  simp only [Function.comp]
  rw [add_assoc]

/-- Negating every delta negates the net. -/
theorem netDelta_neg (l : List (Nat × Int)) (id : Nat) :
    netDelta (l.map fun p => (p.1, -p.2)) id = -netDelta l id := by
  induction l with
  | nil => simp [netDelta]
  | cons a l ih =>
    simp only [List.map_cons, netDelta_cons, ih]
    by_cases h : a.1 == id
    all_goals simp [h]
    all_goals omega

/-- A delta list followed by its pointwise negation restores every counter. -/
theorem applyDeltas_cancel (tallas : List Talla) (ds : List (Nat × Int)) :
    applyDeltas (applyDeltas tallas (ds.map fun p => (p.1, -p.2))) ds = tallas := by
  rw [applyDeltas_applyDeltas]
  have : ∀ t : Talla,
      ({ t with Cantidad := t.Cantidad +
          (netDelta (ds.map fun p => (p.1, -p.2)) t.IdTalla + netDelta ds t.IdTalla) } : Talla) =
        { t with Cantidad := t.Cantidad + 0 } := by
    intro t
    rw [netDelta_neg]
    norm_num
  rw [List.map_congr_left fun t _ => this t, map_cantidad_add_zero]

/-! ## Structure of the order handlers -/

/-- The reversal loop of `anularVenta` as a delta application. -/
theorem foldl_increment_detalles (tallas : List Talla) (l : List DetalleVenta) :
    l.foldl (fun ts d => tallaIncrement ts d.IdTalla d.Cantidad) tallas =
      applyDeltas tallas (l.map fun d => (d.IdTalla, d.Cantidad)) := by
  rw [applyDeltas, List.foldl_map]

/-- The reversal loop of `anularCompra` as a delta application. -/
theorem foldl_decrement_detalles (tallas : List Talla) (l : List DetalleCompra) :
    l.foldl (fun ts d => tallaIncrement ts d.IdTalla (-d.Cantidad)) tallas =
      applyDeltas tallas (l.map fun d => (d.IdTalla, -d.Cantidad)) := by
  rw [applyDeltas, List.foldl_map]

/-- What a successful pass of `createVenta`'s line loop guarantees: the
final variant list is the initial one with one decrement per line, the
produced line payloads carry exactly the requested variants and
quantities, and every line passed the positive-quantity and
sufficient-stock guards against the call-start state. -/
theorem ventaLoop_ok (db : DB) :
    ∀ (items : List ItemVenta) (tallas : List Talla) (dets : List DetalleVenta) (total : Int)
      {out : List Talla × List DetalleVenta × Int},
      ventaLoop db items tallas dets total = .ok out →
      out.1 = applyDeltas tallas (items.map fun i => (i.IdTalla, -i.Cantidad)) ∧
      out.2.1.map (fun d => (d.IdTalla, d.Cantidad)) =
        dets.map (fun d => (d.IdTalla, d.Cantidad)) ++
          items.map (fun i => (i.IdTalla, i.Cantidad)) ∧
      itemsRespetanStock db items = true := by
  intro items
  induction items with
  | nil =>
    intro tallas dets total out h
    simp only [ventaLoop, Except.ok.injEq] at h
    subst h
    refine ⟨by simp [applyDeltas], by simp, by simp [itemsRespetanStock]⟩
  | cons i rest ih =>
    intro tallas dets total out h
    simp only [ventaLoop] at h
    split at h
    · simp at h
    next producto hprod =>
      split at h
      · simp at h
      split at h
      · simp at h
      next talla htalla =>
        split at h
        · simp at h
        split at h
        · simp at h
        next hstock =>
          split at h
          · simp at h
          next hq =>
            obtain ⟨h1, h2, h3⟩ := ih _ _ _ h
            refine ⟨?_, ?_, ?_⟩
            · rw [h1]
              simp [applyDeltas]
            · rw [h2]
              simp
            · have hq' : (0 < i.Cantidad) := by omega
              have hs' : i.Cantidad ≤ talla.Cantidad := by omega
              simp [itemsRespetanStock, List.all_cons, htalla, hq', hs']
              simpa [itemsRespetanStock] using h3

/-- What a successful `createVenta` commits: the loop succeeded and the new
state is the loop's variant list plus the new header and its lines, the
lines re-keyed with fresh ids and the new sale id. -/
theorem createVenta_ok {db db1 : DB} {idCliente vid : Nat} {items : List ItemVenta}
    (h : createVenta db idCliente items = .ok (db1, vid)) :
    ∃ tallas' dets total,
      ventaLoop db items db.tallas [] 0 = .ok (tallas', dets, total) ∧
      vid = db.nextVentaId ∧
      db1 = { db with
        tallas := tallas'
        ventas := db.ventas ++
          [{ IdVenta := vid, IdCliente := idCliente,
             IdEstado := estadoCompletadaId db, Total := total }]
        detallesVenta := db.detallesVenta ++
          dets.enum.map (fun p =>
            { p.2 with IdDetalleVenta := db.nextDetalleVentaId + p.1, IdVenta := vid })
        nextVentaId := db.nextVentaId + 1
        nextDetalleVentaId := db.nextDetalleVentaId + dets.length } := by
  simp only [createVenta] at h
  split at h
  · simp at h
  split at h
  · simp at h
  split at h
  · simp at h
  next cliente hcli =>
    split at h
    · simp at h
    split at h
    · simp at h
    next tallas' dets total hloop =>
      simp only [Except.ok.injEq, Prod.mk.injEq] at h
      obtain ⟨hdb, hvid⟩ := h
      exact ⟨tallas', dets, total, hloop, hvid.symm, by rw [← hdb, ← hvid]⟩

/-- What a successful `anularVenta` does: the sale exists and was not in
state 3, every persisted line's quantity is re-added to its variant once,
and the sale is stamped with the looked-up annulled state. -/
theorem anularVenta_ok {db db' : DB} {id : Nat} (h : anularVenta db id = .ok db') :
    ∃ venta, findVenta db id = some venta ∧ (venta.IdEstado == 3) = false ∧
      db' = { db with
        tallas := applyDeltas db.tallas
          ((ventaDetalles db id).map fun d => (d.IdTalla, d.Cantidad))
        ventas := db.ventas.map fun v =>
          if v.IdVenta == venta.IdVenta then { v with IdEstado := estadoAnuladaId db }
          else v } := by
  simp only [anularVenta] at h
  split at h
  · simp at h
  next venta hfind =>
    split at h
    · simp at h
    next hestado =>
      simp only [Except.ok.injEq] at h
      refine ⟨venta, hfind, by simpa using hestado, ?_⟩
      rw [← h, foldl_increment_detalles]

/-- What a successful `anularCompra` does: the purchase exists and was
active, every persisted line's quantity is subtracted from its variant once
— unconditionally — and the purchase is marked annulled. -/
theorem anularCompra_ok {db db' : DB} {id : Nat} (h : anularCompra db id = .ok db') :
    ∃ compra, findCompra db id = some compra ∧ compra.Estado = true ∧
      db' = { db with
        tallas := applyDeltas db.tallas
          ((compraDetalles db id).map fun d => (d.IdTalla, -d.Cantidad))
        compras := db.compras.map fun c =>
          if c.IdCompra == compra.IdCompra then { c with Estado := false }
          else c } := by
  simp only [anularCompra] at h
  split at h
  · simp at h
  next compra hfind =>
    split at h
    · simp at h
    next hestado =>
      simp only [Except.ok.injEq] at h
      refine ⟨compra, hfind, by simpa using hestado, ?_⟩
      rw [← h, foldl_decrement_detalles]

/-! ## Structure of `createDevolucion` -/

/-- Appending return rows adds their matching active quantities to the
cumulative active-return sum. -/
theorem devolucionesPrevias_of_append (db db' : DB) (v p : Nat) (l2 : List Devolucion)
    (h : db'.devoluciones = db.devoluciones ++ l2) :
    devolucionesPrevias db' v p =
      devolucionesPrevias db v p +
        ((l2.filter fun d => d.IdVenta == v && d.IdProducto == p && d.Estado).map
          Devolucion.Cantidad).sum := by
  simp [devolucionesPrevias, h, List.filter_append]

/-- What a successful `createDevolucion` guarantees and commits: the line
was resolved, the quantity is positive and bounded by the line's sold
quantity net of previous active returns, and the new state appends the
active return (amount `q × line.Precio`), bumps the product-level `Stock`
by `q` and rewrites the resolved line's return-tracking fields. -/
theorem createDevolucion_ok {db db' : DB} {v p did : Nat} {q : Int} {m : String}
    (h : createDevolucion db v p q m = .ok (db', did)) :
    ∃ detalle, findDetalleVenta db v p = some detalle ∧
      0 < q ∧
      devolucionesPrevias db v p + q ≤ detalle.Cantidad ∧
      did = db.nextDevolucionId ∧
      db' = { db with
        devoluciones := db.devoluciones ++
          [{ IdDevolucion := did, IdProducto := p, IdVenta := v, Cantidad := q,
             Motivo := m, Monto := q * detalle.Precio, Estado := true }]
        productos := productoIncrementStock db.productos p q
        detallesVenta := db.detallesVenta.map fun d =>
          if d.IdDetalleVenta == detalle.IdDetalleVenta then
            { d with CantidadDevuelta := devolucionesPrevias db v p + q,
                     Devuelto := devolucionesPrevias db v p + q == detalle.Cantidad }
          else d
        nextDevolucionId := db.nextDevolucionId + 1 } := by
  simp only [createDevolucion] at h
  split at h
  · simp at h
  split at h
  · simp at h
  split at h
  · simp at h
  split at h
  · simp at h
  split at h
  · simp at h
  next venta hventa =>
    split at h
    · simp at h
    next producto hprod =>
      split at h
      · simp at h
      next detalle hdet =>
        split at h
        · simp at h
        next hcap =>
          split at h
          · simp at h
          next hprev =>
            simp only [Except.ok.injEq, Prod.mk.injEq] at h
            obtain ⟨hdb, hdid⟩ := h
            refine ⟨detalle, hdet, ?_, ?_, hdid.symm, ?_⟩
            · omega
            · omega
            · rw [← hdb, ← hdid]

/-- Committed state after the first return of quantity 3 against `dbRet`. -/
def c2w : DB :=
  (((createDevolucion dbRet 10 1 3 "defectuoso").toOption).map Prod.fst).getD dbRet

/-- Committed state after a return of quantity 2 against `dbRet`. -/
def c3w : DB :=
  (((createDevolucion dbRet 10 1 2 "defectuoso").toOption).map Prod.fst).getD dbRet

/-! ## Claim C1 -/

/-- C1 is false on the code: starting from `db0` (variant 1 stock 0), the
callable sequence `createCompra` (buy 5), `createVenta` (sell 5),
`anularCompra` (cancel the purchase) commits successfully at every step and
leaves `Talla.Cantidad = -5`: the cancellation's decrement — an adjustment
whose result is negative — succeeds and mutates, so the `≥ 0` invariant
does not hold at every commit. -/
theorem C1_counterexample :
    tallaCantidad db0 1 = some 0 ∧ c1Run = Except.ok (some (-5)) :=
  ⟨rfl, rfl⟩

/-- C1 amended: only the sale path is guarded.  A `createVenta` call can
only succeed when every requested line has a resolvable variant, a positive
quantity, and a quantity within that variant's stock as read at the start
of the call; the decrements of `anularCompra` are applied with no such
guard (see the counterexample). -/
theorem C1_theorem (db db1 : DB) (idCliente vid : Nat) (items : List ItemVenta)
    (h : createVenta db idCliente items = .ok (db1, vid)) :
    itemsRespetanStock db items = true := by
  obtain ⟨tallas', dets, total, hloop, _, _⟩ := createVenta_ok h
  exact (ventaLoop_ok db items db.tallas [] 0 hloop).2.2

/-- C1 witness: a concrete successful sale of 2 units against stock 5. -/
theorem C1_witness :
    createVenta dbStock5 1 [{ IdProducto := 1, IdTalla := 1, Cantidad := 2 }] =
      Except.ok (c5db1, 1) ∧
    itemsRespetanStock dbStock5 [{ IdProducto := 1, IdTalla := 1, Cantidad := 2 }] = true :=
  ⟨rfl, C1_theorem dbStock5 c5db1 1 1 [{ IdProducto := 1, IdTalla := 1, Cantidad := 2 }] rfl⟩

/-! ## Claim C2 -/

/-- C2 is false on the code: against `dbRet` (one sale line of quantity 4)
the sequence create return of 3, toggle it off, create another return of 3,
toggle the first back on, commits at every step and leaves the line with an
active-return sum of 6 > 4: `toggleDevolucionStatus` reactivates without
the cannot-exceed-line-quantity check. -/
theorem C2_counterexample :
    c2Run = Except.ok (6, some 4) ∧ ¬((6 : Int) ≤ 4) :=
  ⟨rfl, by decide⟩

/-- C2 amended: the bound is enforced at creation only.  A successful
`createDevolucion` adds its quantity to the cumulative active-return sum of
the resolved line and that new sum is at most the line's sold quantity;
`toggleDevolucionStatus` performs no such check when reactivating, so
sequences that include toggles can exceed the bound. -/
theorem C2_theorem (db db' : DB) (v p did : Nat) (q : Int) (m : String)
    (detalle : DetalleVenta)
    (h : createDevolucion db v p q m = .ok (db', did))
    (hd : findDetalleVenta db v p = some detalle) :
    devolucionesPrevias db' v p = devolucionesPrevias db v p + q ∧
    devolucionesPrevias db' v p ≤ detalle.Cantidad := by
  obtain ⟨d2, hd2, hq, hbound, hdid, hdb⟩ := createDevolucion_ok h
  rw [hd] at hd2
  injection hd2 with hd2
  subst hd2
  have hprev : devolucionesPrevias db' v p = devolucionesPrevias db v p + q := by
    rw [hdb]
    simp [devolucionesPrevias, List.filter_append]
  exact ⟨hprev, by omega⟩

/-- C2 witness: a concrete return of 3 against the line of quantity 4. -/
theorem C2_witness :
    createDevolucion dbRet 10 1 3 "defectuoso" = Except.ok (c2w, 1) ∧
    findDetalleVenta dbRet 10 1 =
      some { IdDetalleVenta := 100, IdVenta := 10, IdProducto := 1, IdTalla := 1,
             Cantidad := 4, Precio := 10, Subtotal := 40, Devuelto := false,
             CantidadDevuelta := 0 } ∧
    devolucionesPrevias c2w 10 1 = devolucionesPrevias dbRet 10 1 + 3 ∧
    devolucionesPrevias c2w 10 1 ≤ 4 :=
  ⟨rfl, rfl,
    C2_theorem dbRet c2w 10 1 1 3 "defectuoso"
      { IdDetalleVenta := 100, IdVenta := 10, IdProducto := 1, IdTalla := 1,
        Cantidad := 4, Precio := 10, Subtotal := 40, Devuelto := false,
        CantidadDevuelta := 0 } rfl rfl⟩

/-! ## Claim C3 -/

/-- C3 is false on the code: against `dbRet`, creating a return of 2 and
then annulling it via `anularDevolucion` leaves the line's
`CantidadDevuelta` at 2 while the sum of its active returns is 0:
annulling does not decrement the line's counter. -/
theorem C3_counterexample :
    c3Run = Except.ok (some 2, 0) ∧ (2 : Int) ≠ 0 :=
  ⟨rfl, by decide⟩

/-- C3 amended: the equality holds after `createDevolucion` — which writes
`CantidadDevuelta := previous active sum + quantity`, exactly the new
active sum — but `anularDevolucion` and `toggleDevolucionStatus` flip a
return's state without touching `CantidadDevuelta`, so annulling or
reactivating breaks the equality (see the counterexample). -/
theorem C3_theorem (db db' : DB) (v p did : Nat) (q : Int) (m : String)
    (h : createDevolucion db v p q m = .ok (db', did)) :
    lineaCantidadDevuelta db' v p = some (devolucionesPrevias db' v p) := by
  obtain ⟨detalle, hdet, hq, hbound, hdid, hdb⟩ := createDevolucion_ok h
  have hprev : devolucionesPrevias db' v p = devolucionesPrevias db v p + q := by
    rw [hdb]
    simp [devolucionesPrevias, List.filter_append]
  rw [lineaCantidadDevuelta, hprev, hdb]
  show ((db.detallesVenta.map _).find? _).map _ = _
  rw [find?_map_pres _ _ fun d => by
    by_cases hd : d.IdDetalleVenta == detalle.IdDetalleVenta <;> simp [hd]]
  rw [show db.detallesVenta.find?
      (fun d => d.IdVenta == v && d.IdProducto == p) = some detalle from hdet]
  simp

/-- C3 witness: after the concrete return of 2, the line's
`CantidadDevuelta` equals the active-return sum. -/
theorem C3_witness :
    createDevolucion dbRet 10 1 2 "defectuoso" = Except.ok (c3w, 1) ∧
    lineaCantidadDevuelta c3w 10 1 = some (devolucionesPrevias c3w 10 1) :=
  ⟨rfl, C3_theorem dbRet c3w 10 1 1 2 "defectuoso" rfl⟩

/-! ## Claim C4 -/

/-- C4 confirmed, under the configuration assumption the code itself
hardcodes: the `Estados` catalog resolves `Anulada` to id 3 (which also
holds when the catalog has no such row, by the code's `|| { IdEstado: 3 }`
fallback).  For a sale that exists and is not in state 3, `anularVenta`
succeeds, re-incrementing each persisted line's variant counter exactly
once, and a second `anularVenta` on the result fails with the state error
`La venta ya está anulada` (and, the model being transactional, applies no
mutation).  Likewise for an existing active purchase via `anularCompra`. -/
theorem C4_theorem (db : DB) (iv ic : Nat) (hA : estadoAnuladaId db = 3) :
    (∀ v, findVenta db iv = some v → (v.IdEstado == 3) = false →
      (anularVenta db iv).map DB.tallas =
        Except.ok (applyDeltas db.tallas
          ((ventaDetalles db iv).map fun d => (d.IdTalla, d.Cantidad))) ∧
      (anularVenta db iv).bind (fun db1 => anularVenta db1 iv) =
        Except.error "La venta ya está anulada") ∧
    (∀ c, findCompra db ic = some c → c.Estado = true →
      (anularCompra db ic).map DB.tallas =
        Except.ok (applyDeltas db.tallas
          ((compraDetalles db ic).map fun d => (d.IdTalla, -d.Cantidad))) ∧
      (anularCompra db ic).bind (fun db1 => anularCompra db1 ic) =
        Except.error "La compra ya está anulada") := by
  constructor
  · intro v hfind hv3
    have h1 : anularVenta db iv = Except.ok
        { db with
            tallas := applyDeltas db.tallas
              ((ventaDetalles db iv).map fun d => (d.IdTalla, d.Cantidad))
            ventas := db.ventas.map fun w =>
              if w.IdVenta == v.IdVenta then { w with IdEstado := estadoAnuladaId db }
              else w } := by
      simp only [anularVenta, hfind, hv3, Bool.false_eq_true, if_false,
        foldl_increment_detalles]
    refine ⟨by rw [h1]; rfl, ?_⟩
    rw [h1]
    show anularVenta _ iv = _
    have hf2 : findVenta
        { db with
            tallas := applyDeltas db.tallas
              ((ventaDetalles db iv).map fun d => (d.IdTalla, d.Cantidad))
            ventas := db.ventas.map fun w =>
              if w.IdVenta == v.IdVenta then { w with IdEstado := estadoAnuladaId db }
              else w } iv = some { v with IdEstado := estadoAnuladaId db } := by
      show (db.ventas.map _).find? _ = _
      rw [find?_map_pres _ _ fun w => by
        by_cases hw : w.IdVenta == v.IdVenta <;> simp [hw]]
      rw [show db.ventas.find? (fun w => w.IdVenta == iv) = some v from hfind]
      simp
    simp only [anularVenta]
    rw [hf2]
    simp [hA]
  · intro c hfind hc
    have h1 : anularCompra db ic = Except.ok
        { db with
            tallas := applyDeltas db.tallas
              ((compraDetalles db ic).map fun d => (d.IdTalla, -d.Cantidad))
            compras := db.compras.map fun w =>
              if w.IdCompra == c.IdCompra then { w with Estado := false }
              else w } := by
      simp only [anularCompra, hfind, hc, Bool.not_true, Bool.false_eq_true, if_false,
        foldl_decrement_detalles]
    refine ⟨by rw [h1]; rfl, ?_⟩
    rw [h1]
    show anularCompra _ ic = _
    have hf2 : findCompra
        { db with
            tallas := applyDeltas db.tallas
              ((compraDetalles db ic).map fun d => (d.IdTalla, -d.Cantidad))
            compras := db.compras.map fun w =>
              if w.IdCompra == c.IdCompra then { w with Estado := false }
              else w } ic = some { c with Estado := false } := by
      show (db.compras.map _).find? _ = _
      rw [find?_map_pres _ _ fun w => by
        by_cases hw : w.IdCompra == c.IdCompra <;> simp [hw]]
      rw [show db.compras.find? (fun w => w.IdCompra == ic) = some c from hfind]
      simp
    simp only [anularCompra]
    rw [hf2]
    simp

/-- C4 witness: on `dbC4` (active sale 10, active purchase 20), each first
cancellation applies its reversal once and each second cancellation fails
with the state error. -/
theorem C4_witness :
    estadoAnuladaId dbC4 = 3 ∧
    findVenta dbC4 10 = some { IdVenta := 10, IdCliente := 1, IdEstado := 1, Total := 40 } ∧
    findCompra dbC4 20 = some { IdCompra := 20, IdProveedor := 1, Estado := true, Total := 35 } ∧
    ((anularVenta dbC4 10).map DB.tallas =
        Except.ok (applyDeltas dbC4.tallas
          ((ventaDetalles dbC4 10).map fun d => (d.IdTalla, d.Cantidad))) ∧
      (anularVenta dbC4 10).bind (fun db1 => anularVenta db1 10) =
        Except.error "La venta ya está anulada") ∧
    ((anularCompra dbC4 20).map DB.tallas =
        Except.ok (applyDeltas dbC4.tallas
          ((compraDetalles dbC4 20).map fun d => (d.IdTalla, -d.Cantidad))) ∧
      (anularCompra dbC4 20).bind (fun db1 => anularCompra db1 20) =
        Except.error "La compra ya está anulada") := by
  refine ⟨rfl, rfl, rfl, ?_, ?_⟩
  · exact (C4_theorem dbC4 10 20 rfl).1
      { IdVenta := 10, IdCliente := 1, IdEstado := 1, Total := 40 } rfl rfl
  · exact (C4_theorem dbC4 10 20 rfl).2
      { IdCompra := 20, IdProveedor := 1, Estado := true, Total := 35 } rfl rfl

/-! ## Claim C5 -/

/-- C5 confirmed: from any starting state whose persisted sale lines do not
already use the sale id about to be assigned (true of every state the
handlers themselves produce, since ids are auto-increment), a successful
`createVenta` followed by a successful `anularVenta` of the new sale
restores the entire variant table — in particular every touched variant's
counter — to its exact pre-sale value, the reversal being derived from the
persisted lines. -/
theorem C5_theorem (db db1 db2 : DB) (idCliente vid : Nat) (items : List ItemVenta)
    (hfresh : db.detallesVenta.all (fun d => d.IdVenta != db.nextVentaId) = true)
    (h1 : createVenta db idCliente items = .ok (db1, vid))
    (h2 : anularVenta db1 vid = .ok db2) :
    db2.tallas = db.tallas := by
  obtain ⟨tallas', dets, total, hloop, hvid, hdb1⟩ := createVenta_ok h1
  obtain ⟨hT, hP, _⟩ := ventaLoop_ok db items db.tallas [] 0 hloop
  dsimp only at hT hP
  obtain ⟨venta, hfind, hv3, hdb2⟩ := anularVenta_ok h2
  have hdet1 : db1.detallesVenta = db.detallesVenta ++
      dets.enum.map (fun p =>
        { p.2 with IdDetalleVenta := db.nextDetalleVentaId + p.1, IdVenta := vid }) := by
    rw [hdb1]
  have hfilter : ventaDetalles db1 vid =
      dets.enum.map (fun p =>
        { p.2 with IdDetalleVenta := db.nextDetalleVentaId + p.1, IdVenta := vid }) := by
    rw [ventaDetalles, hdet1, List.filter_append]
    have hold : db.detallesVenta.filter (fun d => d.IdVenta == vid) = [] := by
      rw [List.filter_eq_nil_iff]
      intro d hd
      have := (List.all_eq_true.mp hfresh) d hd
      simp only [bne_iff_ne, ne_eq] at this
      simp [hvid, this]
    have hnew : (dets.enum.map (fun p =>
        { p.2 with IdDetalleVenta := db.nextDetalleVentaId + p.1, IdVenta := vid })).filter
          (fun d => d.IdVenta == vid) =
        dets.enum.map (fun p =>
          { p.2 with IdDetalleVenta := db.nextDetalleVentaId + p.1, IdVenta := vid }) := by
      rw [List.filter_eq_self]
      intro d hd
      obtain ⟨pr, _, hpr⟩ := List.mem_map.mp hd
      rw [← hpr]
      simp
    rw [hold, hnew, List.nil_append]
  have hpairs : (ventaDetalles db1 vid).map (fun d => (d.IdTalla, d.Cantidad)) =
      items.map (fun i => (i.IdTalla, i.Cantidad)) := by
    rw [hfilter, List.enum, enum_reindex_pairs]
    simpa using hP
  have hneg : items.map (fun i => (i.IdTalla, -i.Cantidad)) =
      (items.map fun i => (i.IdTalla, i.Cantidad)).map (fun p => (p.1, -p.2)) := by
    rw [List.map_map]
    rfl
  rw [hdb2]
  show applyDeltas db1.tallas _ = db.tallas
  rw [hpairs]
  have htallas1 : db1.tallas = applyDeltas db.tallas
      ((items.map fun i => (i.IdTalla, i.Cantidad)).map fun p => (p.1, -p.2)) := by
    rw [hdb1]
    show tallas' = _
    rw [hT, hneg]
  rw [htallas1, applyDeltas_cancel]

/-- C5 witness: selling 2 units from stock 5 and cancelling the sale
returns the variant table to its initial value. -/
theorem C5_witness :
    dbStock5.detallesVenta.all (fun d => d.IdVenta != dbStock5.nextVentaId) = true ∧
    createVenta dbStock5 1 [{ IdProducto := 1, IdTalla := 1, Cantidad := 2 }] =
      Except.ok (c5db1, 1) ∧
    anularVenta c5db1 1 = Except.ok c5db2 ∧
    c5db2.tallas = dbStock5.tallas :=
  ⟨rfl, rfl, rfl,
    C5_theorem dbStock5 c5db1 c5db2 1 1 [{ IdProducto := 1, IdTalla := 1, Cantidad := 2 }]
      rfl rfl rfl⟩

/-! ## Occurrence lemmas for the "names the datum" reading of C7 -/

/-- A list starts with itself (followed by anything). -/
theorem leadsWith_append (l t : List Char) : leadsWith l (l ++ t) = true := by
  induction l with
  | nil => rfl
  | cons a as ih => simp [leadsWith, ih]

/-- A needle occurs at the front of `needle ++ t`. -/
theorem occursIn_here (l t : List Char) : occursIn l (l ++ t) = true := by
  cases l with
  | nil =>
    cases t with
    | nil => rfl
    | cons c r =>
      simp only [occursIn, List.nil_append, Bool.or_eq_true]
      exact Or.inl rfl
  | cons a as =>
    simp only [List.cons_append, occursIn, Bool.or_eq_true]
    left
    simp [leadsWith, leadsWith_append]

/-- An occurrence survives prepending characters. -/
theorem occursIn_append_left (pre n hay : List Char) (h : occursIn n hay = true) :
    occursIn n (pre ++ hay) = true := by
  induction pre with
  | nil => simpa
  | cons c cs ih => simp [List.cons_append, occursIn, ih]

/-! ## Claim C6 -/

/-- C6 is false on the code: on `dbAnulada` the referenced sale is in the
annulled state (`IdEstado = 3`), yet `createDevolucion` succeeds — the
handler never consults the sale's state. -/
theorem C6_counterexample :
    (findVenta dbAnulada 10).map Venta.IdEstado = some 3 ∧
    (createDevolucion dbAnulada 10 1 2 "dañado").toOption.isSome = true :=
  ⟨rfl, rfl⟩

/-- C6 amended: for a well-formed request, `createDevolucion` fails — with
no mutation, the transaction rolling back — when the referenced sale does
not exist, and when the resolved sale line does not exist (the product is
not part of the sale); it performs no check on a cancelled sale's state
(see the counterexample). -/
theorem C6_theorem :
    (∀ (db : DB) (v p : Nat) (q : Int) (m : String), v ≠ 0 → p ≠ 0 → 0 < q →
      m.data.all Char.isWhitespace = false →
      findVenta db v = none →
      createDevolucion db v p q m = Except.error "Venta no encontrada") ∧
    (∀ (db : DB) (v p : Nat) (q : Int) (m : String) (venta : Venta) (producto : Producto),
      v ≠ 0 → p ≠ 0 → 0 < q →
      m.data.all Char.isWhitespace = false →
      findVenta db v = some venta → findProducto db p = some producto →
      findDetalleVenta db v p = none →
      createDevolucion db v p q m =
        Except.error "El producto no está incluido en la venta especificada") := by
  constructor
  · intro db v p q m hv hp hq hm hfind
    have hv' : (v == 0) = false := by simp [hv]
    have hp' : (p == 0) = false := by simp [hp]
    have hq' : ¬q ≤ 0 := by omega
    simp [createDevolucion, hv', hp', hq', hm, hfind]
  · intro db v p q m venta producto hv hp hq hm hventa hprod hdet
    have hv' : (v == 0) = false := by simp [hv]
    have hp' : (p == 0) = false := by simp [hp]
    have hq' : ¬q ≤ 0 := by omega
    simp [createDevolucion, hv', hp', hq', hm, hventa, hprod, hdet]

/-- Catalog with a second product that the sale of `dbRet` does not contain. -/
def dbC6 : DB :=
  { dbRet with
      productos := [productoCamisa,
        { productoCamisa with IdProducto := 2, Nombre := "Gorra" }] }

/-- C6 witness: a missing sale and a missing sale line each produce the
corresponding error. -/
theorem C6_witness :
    findVenta db0 10 = none ∧
    createDevolucion db0 10 1 2 "dañado" = Except.error "Venta no encontrada" ∧
    findDetalleVenta dbC6 10 2 = none ∧
    createDevolucion dbC6 10 2 2 "dañado" =
      Except.error "El producto no está incluido en la venta especificada" := by
  refine ⟨rfl, ?_, rfl, ?_⟩
  · exact C6_theorem.1 db0 10 1 2 "dañado" (by decide) (by decide) (by decide) rfl rfl
  · exact C6_theorem.2 dbC6 10 2 2 "dañado"
      { IdVenta := 10, IdCliente := 1, IdEstado := 1, Total := 40 }
      { productoCamisa with IdProducto := 2, Nombre := "Gorra" }
      (by decide) (by decide) (by decide) rfl rfl rfl rfl

/-! ## Claim C7 -/

/-- C7 is false on the code as regards the message's content: with stock 5
and a request of 6, `createVenta` is rejected, but the error names only the
product, the variant and the available quantity — the rendering of the
requested quantity (`6`) and of the deficit (`1`) occur nowhere in it. -/
theorem C7_counterexample :
    createVenta dbStock5 1 [{ IdProducto := 1, IdTalla := 1, Cantidad := 6 }] =
      Except.error "Stock insuficiente para Camisa - Talla M. Disponible: 5" ∧
    mentions "Stock insuficiente para Camisa - Talla M. Disponible: 5" "6" = false ∧
    mentions "Stock insuficiente para Camisa - Talla M. Disponible: 5" "1" = false :=
  ⟨rfl, rfl, rfl⟩

/-- C7 amended: a single-line sale whose quantity exceeds the variant's
stock is rejected with an insufficient-stock error that names the product,
the variant and the available quantity (not the requested quantity or the
deficit); the rejection commits nothing — the transaction rolls back. -/
theorem C7_theorem (db : DB) (idCliente idProducto idTalla : Nat) (q : Int)
    (cliente : Cliente) (producto : Producto) (talla : Talla)
    (hcz : idCliente ≠ 0)
    (hc : findCliente db idCliente = some cliente) (hce : cliente.Estado = true)
    (hp : findProducto db idProducto = some producto) (hpe : producto.Estado = true)
    (ht : findTalla db idTalla idProducto = some talla) (hte : talla.Estado = true)
    (hq : talla.Cantidad < q) :
    createVenta db idCliente [{ IdProducto := idProducto, IdTalla := idTalla, Cantidad := q }] =
      Except.error (stockInsuficienteMsg producto talla) ∧
    mentions (stockInsuficienteMsg producto talla) producto.Nombre = true ∧
    mentions (stockInsuficienteMsg producto talla) talla.Nombre = true ∧
    mentions (stockInsuficienteMsg producto talla) (toString talla.Cantidad) = true := by
  have hcz' : (idCliente == 0) = false := by simp [hcz]
  refine ⟨?_, ?_, ?_, ?_⟩
  · simp [createVenta, ventaLoop, hcz', hc, hce, hp, hpe, ht, hte, hq]
  · unfold mentions stockInsuficienteMsg
    simp only [String.data_append, List.append_assoc]
    exact occursIn_append_left _ _ _ (occursIn_here _ _)
  · unfold mentions stockInsuficienteMsg
    simp only [String.data_append, List.append_assoc]
    exact occursIn_append_left _ _ _ (occursIn_append_left _ _ _
      (occursIn_append_left _ _ _ (occursIn_here _ _)))
  · unfold mentions stockInsuficienteMsg
    simp only [String.data_append, List.append_assoc]
    refine occursIn_append_left _ _ _ (occursIn_append_left _ _ _
      (occursIn_append_left _ _ _ (occursIn_append_left _ _ _
        (occursIn_append_left _ _ _ ?_))))
    simpa using occursIn_here (toString talla.Cantidad).data []

/-- C7 witness: scenario B — stock 5, requested 6, concrete rejection. -/
theorem C7_witness :
    findTalla dbStock5 1 1 =
      some { IdTalla := 1, Nombre := "M", Cantidad := 5, IdProducto := some 1, Estado := true } ∧
    createVenta dbStock5 1 [{ IdProducto := 1, IdTalla := 1, Cantidad := 6 }] =
      Except.error (stockInsuficienteMsg productoCamisa
        { IdTalla := 1, Nombre := "M", Cantidad := 5, IdProducto := some 1, Estado := true }) ∧
    mentions (stockInsuficienteMsg productoCamisa
      { IdTalla := 1, Nombre := "M", Cantidad := 5, IdProducto := some 1, Estado := true })
      "Camisa" = true := by
  have h := C7_theorem dbStock5 1 1 1 6 { IdCliente := 1, Estado := true } productoCamisa
    { IdTalla := 1, Nombre := "M", Cantidad := 5, IdProducto := some 1, Estado := true }
    (by decide) rfl rfl rfl rfl rfl rfl (by decide)
  exact ⟨rfl, h.1, h.2.1⟩

/-! ## Claim C8 -/

/-- C8 confirmed: a successful `createDevolucion` of quantity `q` leaves
the entire per-variant table (`Talla.Cantidad`) unchanged, changes the
product table exactly by `Producto.increment('Stock', q)` on the returned
product, and fixes the new return's `Monto` at `q ×` the resolved line's
snapshotted `Precio` — not the product's current catalog price. -/
theorem C8_theorem (db db' : DB) (v p did : Nat) (q : Int) (m : String)
    (h : createDevolucion db v p q m = .ok (db', did)) :
    db'.tallas = db.tallas ∧
    db'.productos = productoIncrementStock db.productos p q ∧
    (db'.devoluciones.getLast?).map Devolucion.Monto =
      (findDetalleVenta db v p).map (fun d => q * d.Precio) := by
  obtain ⟨detalle, hdet, _, _, hdid, hdb⟩ := createDevolucion_ok h
  subst hdb
  refine ⟨rfl, rfl, ?_⟩
  show ((db.devoluciones ++ [_]).getLast?).map _ = _
  rw [List.getLast?_concat, hdet]
  rfl

/-- Committed state after a return of quantity 2 against `dbRet` (used by
the C8 witness). -/
def c8w : DB :=
  (((createDevolucion dbRet 10 1 2 "defectuoso").toOption).map Prod.fst).getD dbRet

/-- C8 witness: the concrete return of 2 leaves variants untouched, bumps
`Producto.Stock` by 2 and fixes `Monto = 2 × 10`. -/
theorem C8_witness :
    createDevolucion dbRet 10 1 2 "defectuoso" = Except.ok (c8w, 1) ∧
    c8w.tallas = dbRet.tallas ∧
    c8w.productos = productoIncrementStock dbRet.productos 1 2 ∧
    (c8w.devoluciones.getLast?).map Devolucion.Monto =
      (findDetalleVenta dbRet 10 1).map (fun d => 2 * d.Precio) := by
  have h := C8_theorem dbRet c8w 10 1 1 2 "defectuoso" rfl
  exact ⟨rfl, h.1, h.2.1, h.2.2⟩

/-! ## Claim C9 -/

/-- C9 is false on the code: `createVenta`'s pre-check reads the committed
stock outside the transaction and takes no lock, so the interleaving in
which both calls run their pre-check (each sees stock 5) before either
commits lets both calls succeed and drives the stock to `-3` — not
"exactly one succeeds" and not "never negative". -/
theorem C9_counterexample :
    runTwoSales 4 4 [true, false, true, false]
      { stock := 5, phase1 := .ready, phase2 := .ready } =
      { stock := -3, phase1 := .succeeded, phase2 := .succeeded } :=
  rfl

/-- C9 amended: the claimed outcome is only guaranteed when the two calls
are serialized — one call's pre-check and commit both complete before the
other starts.  Under the serialized schedule the first call succeeds
(stock 5 → 1) and the second fails its insufficient-stock pre-check; under
the overlapped schedule of the counterexample both succeed and the stock
goes negative. -/
theorem C9_theorem :
    runTwoSales 4 4 [true, true, false, false]
      { stock := 5, phase1 := .ready, phase2 := .ready } =
      { stock := 1, phase1 := .succeeded, phase2 := .failed } :=
  rfl

/-! ## Claim C10 -/

/-- C10 confirmed: a successful `updateDevolucion` — the public
`PUT /api/devoluciones/:id` — leaves every stock counter (`Talla.Cantidad`,
`Producto.Stock`) and every sale line (in particular `CantidadDevuelta` and
`Devuelto`) untouched, and rewrites only the `Motivo`/`Estado` fields of
return records: every return keeps its identity, references, quantity and
amount.  This holds in particular when the update flips `Estado`, i.e. the
PUT route toggles a return's state without any stock compensation. -/
theorem C10_theorem (db db' : DB) (id : Nat) (motivo : Option String)
    (estado : Option Bool)
    (h : updateDevolucion db id motivo estado = .ok db') :
    db'.tallas = db.tallas ∧ db'.productos = db.productos ∧
    db'.detallesVenta = db.detallesVenta ∧ db'.ventas = db.ventas ∧
    db'.compras = db.compras ∧
    List.Forall₂ (fun d0 d1 =>
      d1.IdDevolucion = d0.IdDevolucion ∧ d1.IdVenta = d0.IdVenta ∧
      d1.IdProducto = d0.IdProducto ∧ d1.Cantidad = d0.Cantidad ∧ d1.Monto = d0.Monto)
      db.devoluciones db'.devoluciones := by
  simp only [updateDevolucion] at h
  split at h
  · simp at h
  next devolucion hfind =>
    split at h
    next m =>
      split at h
      · simp at h
      split at h
      · simp at h
      simp only [Except.ok.injEq] at h
      subst h
      refine ⟨rfl, rfl, rfl, rfl, rfl, ?_⟩
      exact forall2_map_self _ _
        (fun d => by by_cases hd : d.IdDevolucion == devolucion.IdDevolucion <;> simp [hd]) _
    next =>
      simp only [Except.ok.injEq] at h
      subst h
      refine ⟨rfl, rfl, rfl, rfl, rfl, ?_⟩
      exact forall2_map_self _ _
        (fun d => by by_cases hd : d.IdDevolucion == devolucion.IdDevolucion <;> simp [hd]) _

/-- `dbRet` with one active return of quantity 2 (amount 20) registered. -/
def dbC10 : DB :=
  { dbRet with
      devoluciones :=
        [{ IdDevolucion := 1, IdProducto := 1, IdVenta := 10, Cantidad := 2,
           Motivo := "defectuoso", Monto := 20, Estado := true }]
      nextDevolucionId := 2 }

/-- Committed state after flipping that return's `Estado` through the PUT
route. -/
def c10w : DB :=
  ((updateDevolucion dbC10 1 none (some false)).toOption).getD dbC10

/-- C10 witness: flipping the return active → annulled via
`updateDevolucion` changes no stock counter and no sale line. -/
theorem C10_witness :
    updateDevolucion dbC10 1 none (some false) = Except.ok c10w ∧
    (c10w.tallas = dbC10.tallas ∧ c10w.productos = dbC10.productos ∧
     c10w.detallesVenta = dbC10.detallesVenta ∧ c10w.ventas = dbC10.ventas ∧
     c10w.compras = dbC10.compras ∧
     List.Forall₂ (fun d0 d1 =>
       d1.IdDevolucion = d0.IdDevolucion ∧ d1.IdVenta = d0.IdVenta ∧
       d1.IdProducto = d0.IdProducto ∧ d1.Cantidad = d0.Cantidad ∧ d1.Monto = d0.Monto)
       dbC10.devoluciones c10w.devoluciones) :=
  ⟨rfl, C10_theorem dbC10 c10w 1 none (some false) rfl⟩

end Nueva
